import Mathlib

/-!
Verification of `src/bing_rewards/daily_activities.py`.

The module drives Microsoft Rewards daily activities through a browser
automation driver (Playwright).  We embed the module shallowly:

* A loaded page's DOM is abstracted by which CSS selectors match it
  (`DomState`): `page.query_selector sel` finds an element exactly when
  the selector matches the DOM, and matching a constant selector against
  a loaded DOM is a total operation.
* Driver calls that the source explicitly guards against exceptions
  (element queries inside handlers, clicks, navigation, `page.content`)
  are modelled as `Except Unit α`: `Except.error ()` is the call raising.
* A handler run is driven by an environment recording the outcome of
  each driver call the handler makes, one observation per loop iteration.
-/

namespace DailyActivities

/-- A DOM state: for each CSS selector, whether at least one element of the
current page matches it. -/
def DomState := String → Bool

/-- Quiz marker selectors, from `detect_activity_type` (source lines 159-166). -/
def quiz_selectors : List String :=
  ["#rqQuestionState", "[class*=\x27rqQuestion\x27]", "[id*=\x27rqAnswerOption\x27]",
   ".wk_choicesInst498", "#quizCompleteContainer", "[class*=\x27QuizQuestion\x27]"]

/-- Poll marker selectors (source lines 172-178). -/
def poll_selectors : List String :=
  ["#btPollOverlay", "[class*=\x27pollOption\x27]", "[class*=\x27PollOption\x27]",
   "[class*=\x27bt_poll\x27]", "[id*=\x27btoption\x27]"]

/-- Trivia / this-or-that marker selectors (source lines 184-191). -/
def trivia_selectors : List String :=
  [".wk_Circle", "[class*=\x27TriviaOption\x27]", "#rqAnswerOption0",
   "[class*=\x27trivia\x27]", "[class*=\x27thisOrThat\x27]", "[class*=\x27btOptionCard\x27]"]

/-- Lightspeed-quiz marker selectors (source lines 197-201); a match is
classified as `quiz`. -/
def lightspeed_selectors : List String :=
  ["[class*=\x27lightspeed\x27]", "#rqStartQuiz", "[id*=\x27StartQuiz\x27]"]

/-- Embedding of `detect_activity_type` (source lines 150-207): four ordered
selector groups, first group with any match wins; `click_only` when none
match. -/
def detect_activity_type (q : DomState) : String :=
  if quiz_selectors.any q then "quiz"
  else if poll_selectors.any q then "poll"
  else if trivia_selectors.any q then "trivia"
  else if lightspeed_selectors.any q then "quiz"
  else "click_only"

/-!  Handlers.  Each handler body runs under a `try`/`except` boundary that
converts an escaping exception into the return value `False`. -/

/-- Result of a handler body: either the returned boolean, or `Except.error ()`
for an exception escaping the body.  `boundary` is the handler's
`except Exception: return False` wrapper. -/
def boundary : Except Unit Bool → Bool
  | Except.error _ => false
  | Except.ok b => b

/-- Observations one quiz loop iteration makes (source lines 232-263):
the two option queries, whether `choice.click()` raises (the source swallows
this with an inner `try`/`except: pass`), and the completion-marker query.
Elements are abstracted as their indices. -/
structure QuizObs where
  optsA : Except Unit (List Nat)
  optsB : Except Unit (List Nat)
  clickRaises : Bool
  complete : Except Unit Bool

/-- Embedding of the quiz answer loop `for q in range(20)` (source lines
231-267).  Arguments: per-iteration observations, current iteration index,
remaining iterations, click iterations performed so far.  Returns the body
outcome paired with the total number of click iterations performed. -/
def quizLoop (steps : Nat → QuizObs) : Nat → Nat → Nat → Except Unit Bool × Nat
  | _, 0, clicks => (Except.ok true, clicks)
  | q, r + 1, clicks =>
    match (steps q).optsA with
    | Except.error e => (Except.error e, clicks)
    | Except.ok optsA =>
      match (if optsA.isEmpty then (steps q).optsB else Except.ok optsA) with
      | Except.error e => (Except.error e, clicks)
      | Except.ok opts =>
        if opts.isEmpty then (Except.ok true, clicks)
        else
          match (steps q).complete with
          | Except.error e => (Except.error e, clicks + 1)
          | Except.ok c =>
            if c then (Except.ok true, clicks + 1)
            else quizLoop steps (q + 1) r (clicks + 1)

/-- Driver-call outcomes for one `handle_quiz` run: the start-button query,
the start-button click (unguarded in the source), and the loop
observations. -/
structure QuizEnv where
  startBtn : Except Unit Bool
  startClick : Except Unit Unit
  steps : Nat → QuizObs

/-- Body of `handle_quiz` (source lines 221-267), before the boundary. -/
def handle_quiz_run (env : QuizEnv) : Except Unit Bool × Nat :=
  match env.startBtn with
  | Except.error e => (Except.error e, 0)
  | Except.ok found =>
    if found then
      match env.startClick with
      | Except.error e => (Except.error e, 0)
      | Except.ok _ => quizLoop env.steps 0 20 0
    else quizLoop env.steps 0 20 0

/-- Embedding of `handle_quiz` (source lines 214-271). -/
def handle_quiz (env : QuizEnv) : Bool :=
  boundary (handle_quiz_run env).1

/-- Observations one trivia loop iteration makes (source lines 320-348):
the single option query, whether the click raises (swallowed), and the
completion-marker query. -/
structure TriviaObs where
  opts : Except Unit (List Nat)
  clickRaises : Bool
  complete : Except Unit Bool

/-- Embedding of the trivia answer loop `for q in range(15)` (source lines
319-350), same argument convention as `quizLoop`. -/
def triviaLoop (steps : Nat → TriviaObs) : Nat → Nat → Nat → Except Unit Bool × Nat
  | _, 0, clicks => (Except.ok true, clicks)
  | q, r + 1, clicks =>
    match (steps q).opts with
    | Except.error e => (Except.error e, clicks)
    | Except.ok opts =>
      if opts.isEmpty then (Except.ok true, clicks)
      else
        match (steps q).complete with
        | Except.error e => (Except.error e, clicks + 1)
        | Except.ok c =>
          if c then (Except.ok true, clicks + 1)
          else triviaLoop steps (q + 1) r (clicks + 1)

/-- Body of `handle_trivia` (source lines 317-350), before the boundary. -/
def handle_trivia_run (steps : Nat → TriviaObs) : Except Unit Bool × Nat :=
  triviaLoop steps 0 15 0

/-- Embedding of `handle_trivia` (source lines 310-354). -/
def handle_trivia (steps : Nat → TriviaObs) : Bool :=
  boundary (handle_trivia_run steps).1

/-- Driver-call outcomes for one `handle_poll` run (source lines 282-303):
the two option queries and the click on the chosen option.  In the source
the poll click is NOT wrapped in an inner `try`: a raise escapes to the
handler boundary. -/
structure PollEnv where
  opts : Except Unit (List Nat)
  optsB : Except Unit (List Nat)
  click : Except Unit Unit

/-- Body of `handle_poll` (source lines 281-303), before the boundary.
Returns the outcome and the number of click iterations performed. -/
def handle_poll_run (env : PollEnv) : Except Unit Bool × Nat :=
  match env.opts with
  | Except.error e => (Except.error e, 0)
  | Except.ok o =>
    match (if o.isEmpty then env.optsB else Except.ok o) with
    | Except.error e => (Except.error e, 0)
    | Except.ok opts =>
      if opts.isEmpty then (Except.ok false, 0)
      else
        match env.click with
        | Except.error e => (Except.error e, 1)
        | Except.ok _ => (Except.ok true, 1)

/-- Embedding of `handle_poll` (source lines 274-307). -/
def handle_poll (env : PollEnv) : Bool :=
  boundary (handle_poll_run env).1

/-- Driver-call outcome for `handle_click_only` (source lines 357-375):
only the `page.evaluate` scroll can raise (the waits swallow their own
errors). -/
structure ClickOnlyEnv where
  scroll : Except Unit Unit

/-- Body of `handle_click_only`, before the boundary. -/
def handle_click_only_run (env : ClickOnlyEnv) : Except Unit Bool :=
  match env.scroll with
  | Except.error e => Except.error e
  | Except.ok _ => Except.ok true

/-- Embedding of `handle_click_only` (source lines 357-375). -/
def handle_click_only (env : ClickOnlyEnv) : Bool :=
  boundary (handle_click_only_run env)

/-!  Activity detection. -/

/-- Embedding of the `Activity` class (source lines 30-41). -/
structure Activity where
  title : String
  points : String
  url : String
  completed : Bool
deriving DecidableEq, Repr

/-- Models the Python slice `s[:n]`: the first `n` characters of `s`. -/
def pyTruncate (s : String) (n : Nat) : String :=
  String.mk (s.data.take n)

/-- Driver observations for one dashboard card examined by
`detect_activities` (source lines 89-141).  Text fields hold the stripped
inner text the driver returned; an `Except.error ()` is the corresponding
driver call raising, which makes the source skip the card. -/
structure Card where
  titleSub : Except Unit (Option String)
  ownText : Except Unit String
  pointsSub : Except Unit (Option String)
  linkEl : Except Unit Bool
  linkHref : Except Unit (Option String)
  ownHref : Except Unit (Option String)
  checkEl : Except Unit Bool

/-- Title extraction for one card (source lines 92-99): nested title
sub-element first, falling back to the card's own text truncated to 80
characters. -/
def cardTitle (c : Card) : Except Unit String :=
  match c.titleSub with
  | Except.error e => Except.error e
  | Except.ok tEl =>
    let t0 := match tEl with | some t => t | none => ""
    if t0 = "" then
      match c.ownText with
      | Except.error e => Except.error e
      | Except.ok s => Except.ok (pyTruncate s 80)
    else Except.ok t0

/-- URL extraction for one card (source lines 112-119): a nested anchor's
href when present, else the card's own href attribute; a missing attribute
becomes `""`. -/
def cardUrl (c : Card) : Except Unit String :=
  match c.linkEl with
  | Except.error e => Except.error e
  | Except.ok true =>
    match c.linkHref with
    | Except.error e => Except.error e
    | Except.ok h => Except.ok (h.getD "")
  | Except.ok false =>
    match c.ownHref with
    | Except.error e => Except.error e
    | Except.ok h => Except.ok (h.getD "")

/-- Embedding of the per-card body of `detect_activities` (source lines
89-141): `none` when the card is skipped (short title, no URL, completed,
or any extraction raise), `some a` when an `Activity` is appended. -/
def parseCard (c : Card) : Option Activity :=
  match cardTitle c with
  | Except.error _ => none
  | Except.ok title =>
    if title = "" || title.length < 3 then none
    else
      match c.pointsSub with
      | Except.error _ => none
      | Except.ok pEl =>
        let points := pEl.getD ""
        match cardUrl c with
        | Except.error _ => none
        | Except.ok url =>
          match c.checkEl with
          | Except.error _ => none
          | Except.ok completed =>
            if url ≠ "" && !completed then
              some (Activity.mk title points url completed)
            else none

/-- The dashboard DOM as seen by `detect_activities`: the card lists the
three selector strategies would return (source lines 77-87). -/
structure DashboardDom where
  meeCards : List Card
  classCards : List Card
  anchorCards : List Card

/-- Embedding of `detect_activities` (source lines 62-143): first selector
strategy with any elements wins, then each card is parsed, skips filtered
out. -/
def detect_activities (d : DashboardDom) : List Activity :=
  let cards :=
    if d.meeCards.isEmpty then
      if d.classCards.isEmpty then d.anchorCards else d.classCards
    else d.meeCards
  cards.filterMap parseCard

/-- Whether the first character list occurs at the head of the second. -/
def matchesAt : List Char → List Char → Bool
  | [], _ => true
  | _ :: _, [] => false
  | c :: cs, h :: hs => c == h && matchesAt cs hs

/-- Whether the first character list occurs contiguously anywhere in the
second. -/
def subOf (needle : List Char) : List Char → Bool
  | [] => needle.isEmpty
  | h :: t => matchesAt needle (h :: t) || subOf needle t

/-- Substring containment, modelling the Python `needle in hay` test. -/
def strContains (hay needle : String) : Bool :=
  subOf needle.data hay.data

/-- Models Python `str.lower()`: character-wise lowercasing (the keywords
compared against are all ASCII). -/
def pyLower (s : String) : String :=
  String.mk (s.data.map Char.toLower)

/-- Models Python `str.isdigit` on an ASCII-digit treatment: non-empty and
all characters digits. -/
def pyIsDigit (s : String) : Bool :=
  !s.isEmpty && s.data.all Char.isDigit

/-- Accumulates maximal whitespace-free character runs; `cur` holds the
current run reversed. -/
def wordsAux : List Char → List Char → List (List Char)
  | [], cur => if cur.isEmpty then [] else [cur.reverse]
  | c :: rest, cur =>
    if c.isWhitespace then
      if cur.isEmpty then wordsAux rest [] else cur.reverse :: wordsAux rest []
    else wordsAux rest (c :: cur)

/-- Models Python `text.split()`: split on whitespace runs, no empty
words. -/
def pyWords (text : String) : List String :=
  (wordsAux text.data []).map String.mk

/-- Models Python `w.startswith(p)`. -/
def pyStartsWith (w p : String) : Bool :=
  matchesAt p.data w.data

/-- Models Python `w[n:]`: drop the first `n` characters. -/
def pyDrop (w : String) (n : Nat) : String :=
  String.mk (w.data.drop n)

/-- The keyword set of `_detect_alternative` (source lines 638-642). -/
def reward_indicators : List String :=
  ["quiz", "poll", "trivia", "puzzle", "+5", "+10", "+15", "+20", "+30", "+50",
   "daily", "challenge"]

/-- Points extraction of `_detect_alternative` (source lines 654-658): the
first whitespace-delimited word of the form `+<digits>`, else `""`. -/
def extractPoints (text : String) : String :=
  match (pyWords text).find? (fun w => pyStartsWith w "+" && pyIsDigit (pyDrop w 1)) with
  | some w => w
  | none => ""

/-- Driver observations for one hyperlink examined by `_detect_alternative`
(source lines 628-667): its href attribute and stripped inner text. -/
structure Link where
  href : Except Unit (Option String)
  text : Except Unit String

/-- Embedding of the per-link body of `_detect_alternative` (source lines
628-667). -/
def parseLink (l : Link) : Option Activity :=
  match l.href with
  | Except.error _ => none
  | Except.ok h =>
    let href := h.getD ""
    match l.text with
    | Except.error _ => none
    | Except.ok text =>
      if text = "" || text.length < 5 || 200 < text.length then none
      else
        let tl := pyLower text
        let hl := pyLower href
        let isReward := reward_indicators.any (fun ind => strContains tl ind || strContains hl ind)
        if isReward && href ≠ "" then
          some (Activity.mk (pyTruncate text 80) (extractPoints text) href false)
        else none

/-- Embedding of `_detect_alternative` (source lines 620-672). -/
def detect_alternative (links : List Link) : List Activity :=
  links.filterMap parseLink

/-!  Login gate. -/

/-- Driver-call outcomes for one `_check_login` run (source lines 589-617):
the avatar/user-element query, the page content, and the sign-in-element
query. -/
structure LoginEnv where
  userEl : Except Unit Bool
  content : Except Unit String
  signInEl : Except Unit Bool

/-- Body of `_check_login`, before its `except Exception: return True`
boundary (source lines 591-614). -/
def check_login_run (env : LoginEnv) : Except Unit Bool :=
  match env.userEl with
  | Except.error e => Except.error e
  | Except.ok true => Except.ok true
  | Except.ok false =>
    match env.content with
    | Except.error e => Except.error e
    | Except.ok content =>
      let low := pyLower content
      if strContains low "rewards" && (strContains low "point" || strContains low "poin") then
        Except.ok true
      else
        match env.signInEl with
        | Except.error e => Except.error e
        | Except.ok s => Except.ok (!s)

/-- Embedding of `_check_login` (source lines 589-617): a raise anywhere in
the body yields `true` (assume logged in when the check fails). -/
def check_login (env : LoginEnv) : Bool :=
  match check_login_run env with
  | Except.error _ => true
  | Except.ok b => b

/-!  Per-activity orchestration (`complete_activity` and the activity loop of
`run_daily_activities`). -/

/-- Driver-call outcomes for one `complete_activity` run (source lines
378-414): the navigation to the activity URL, the DOM the classifier sees
after it, and the environments consumed by whichever handler is
dispatched. -/
structure ActivityPage where
  nav : Except Unit Unit
  classifyDom : DomState
  quizEnv : QuizEnv
  pollEnv : PollEnv
  triviaEnv : Nat → TriviaObs
  clickOnlyEnv : ClickOnlyEnv

/-- The dispatched handler's body outcome, per the `handlers` table of
`complete_activity` (source lines 395-402): unknown keys fall back to
`handle_click_only`. -/
def dispatchRun (t : String) (p : ActivityPage) : Except Unit Bool :=
  if t = "quiz" then (handle_quiz_run p.quizEnv).1
  else if t = "poll" then (handle_poll_run p.pollEnv).1
  else if t = "trivia" then (handle_trivia_run p.triviaEnv).1
  else handle_click_only_run p.clickOnlyEnv

/-- Embedding of `complete_activity` (source lines 378-414): navigate,
classify, dispatch; any raise escaping (navigation timeout included) is
caught at the activity boundary and yields `false`. -/
def complete_activity (p : ActivityPage) : Bool :=
  match p.nav with
  | Except.error _ => false
  | Except.ok _ => boundary (dispatchRun (detect_activity_type p.classifyDom) p)

/-- Embedding of the `for act in activities` loop of `run_daily_activities`
(source lines 555-570): each activity is attempted in order and `completed`
is incremented on success; the back-navigation errors are swallowed and do
not affect the tally. -/
def activitiesLoop : List ActivityPage → Nat
  | [] => 0
  | p :: rest => (if complete_activity p then 1 else 0) + activitiesLoop rest

/-!  Run lifecycle (`run_daily_activities`).  The whole body after browser
detection sits inside `async with async_playwright() as p:`; leaving that
block stops the Playwright driver, which closes every browser context the
driver launched.  The trace below records the context lifecycle events:
`closedExplicit` for the source's own `await context.close()` calls,
`closedTeardown` for the close performed by the `async with` teardown on
the paths (fatal `except` branch, or an explicit close that itself raised)
where the source reaches the teardown with the context still open. -/

/-- Context lifecycle events of one run. -/
inductive Event where
  | created
  | closedExplicit
  | closedTeardown
deriving DecidableEq, Repr

/-- Driver-call outcomes for one `run_daily_activities` run (source lines
421-586). -/
structure RunEnv where
  detectedBrowser : Option String
  launch : Except Unit Unit
  newPage : Except Unit Unit
  gotoDash : Except Unit Unit
  login1 : LoginEnv
  waitInput : Except Unit Unit
  regoto : Except Unit Unit
  login2 : LoginEnv
  dashScan : Except Unit Unit
  dashboard : DashboardDom
  altScan : Except Unit Unit
  altLinks : List Link
  pages : Nat → ActivityPage
  earlyCloseRaises : Bool
  finalCloseRaises : Bool

/-- Browser executable resolution (source lines 451-467): an empty
`browser_path` argument falls back to the auto-detected browser, if any. -/
def effectiveBrowser (browser_path : String) (detected : Option String) : String :=
  if browser_path = "" then
    match detected with
    | some p => p
    | none => ""
  else browser_path

/-- The detection phase and activity loop of `run_daily_activities`
(source lines 534-579): primary detection, alternative fallback when it is
empty, the per-activity loop unless `dryrun`, then the final
`context.close()`. -/
def detectBoth (env : RunEnv) : Except Unit (List Activity) :=
  let primary := detect_activities env.dashboard
  if primary.isEmpty then
    match env.altScan with
    | Except.error e => Except.error e
    | Except.ok _ => Except.ok (detect_alternative env.altLinks)
  else Except.ok primary

/-- The activity loop and final close of `run_daily_activities`
(source lines 546-579): the per-activity loop runs unless `dryrun` or no
activities, then the final `context.close()`. -/
def runDetectPhase (env : RunEnv) (dryrun : Bool) : Nat × List Event :=
  match env.dashScan with
  | Except.error _ => (0, [Event.created, Event.closedTeardown])
  | Except.ok _ =>
    match detectBoth env with
    | Except.error _ => (0, [Event.created, Event.closedTeardown])
    | Except.ok acts =>
      let completed :=
        if acts.isEmpty || dryrun then 0
        else activitiesLoop ((List.range acts.length).map env.pages)
      if env.finalCloseRaises then (completed, [Event.created, Event.closedTeardown])
      else (completed, [Event.created, Event.closedExplicit])

/-- The login phase of `run_daily_activities` (source lines 513-532):
when the first check fails, wait for manual input, re-navigate and re-check;
a second failure closes the context and returns 0. -/
def runLoginPhase (env : RunEnv) (dryrun : Bool) : Nat × List Event :=
  if check_login env.login1 then runDetectPhase env dryrun
  else
    match env.waitInput with
    | Except.error _ => (0, [Event.created, Event.closedTeardown])
    | Except.ok _ =>
      match env.regoto with
      | Except.error _ => (0, [Event.created, Event.closedTeardown])
      | Except.ok _ =>
        if check_login env.login2 then runDetectPhase env dryrun
        else if env.earlyCloseRaises then (0, [Event.created, Event.closedTeardown])
        else (0, [Event.created, Event.closedExplicit])

/-- Embedding of `run_daily_activities` (source lines 421-586).  Returns the
completed count the source returns and the trace of context lifecycle
events.  The `profile` argument is accepted but, as in the source
(documented there as unused, kept for API compatibility), never read. -/
def run_daily_activities (env : RunEnv) (browser_path profile : String)
    (headless dryrun : Bool) : Nat × List Event :=
  if effectiveBrowser browser_path env.detectedBrowser = "" then (0, [])
  else
    match env.launch with
    | Except.error _ => (0, [])
    | Except.ok _ =>
      match env.newPage with
      | Except.error _ => (0, [Event.created, Event.closedTeardown])
      | Except.ok _ =>
        match env.gotoDash with
        | Except.error _ => (0, [Event.created, Event.closedTeardown])
        | Except.ok _ => runLoginPhase env dryrun

/-- Embedding of `_get_bot_data_dir` (source lines 675-688): a fixed
location under `LOCALAPPDATA` (or its home-relative default), taking no
profile input. -/
def get_bot_data_dir (localappdata : Option String) (home : String) : String :=
  (match localappdata with
   | some v => v
   | none => home ++ "/AppData/Local") ++ "/BingRewardsBot/User Data"

/-!  Helper lemmas. -/

/-- The quiz loop's click count grows by at most one per remaining
iteration. -/
theorem quizLoop_clicks_le (steps : Nat → QuizObs) :
    ∀ (r q c : Nat), (quizLoop steps q r c).2 ≤ c + r := by
  intro r
  induction r with
  | zero => intro q c; simp [quizLoop]
  | succ n ih =>
    intro q c
    have hrec := ih (q + 1) (c + 1)
    unfold quizLoop
    split
    · simp
    · split
      · simp
      · split
        · simp
        · split
          · simp
          · split
            · simp
            · omega

/-- The trivia loop's click count grows by at most one per remaining
iteration. -/
theorem triviaLoop_clicks_le (steps : Nat → TriviaObs) :
    ∀ (r q c : Nat), (triviaLoop steps q r c).2 ≤ c + r := by
  intro r
  induction r with
  | zero => intro q c; simp [triviaLoop]
  | succ n ih =>
    intro q c
    have hrec := ih (q + 1) (c + 1)
    unfold triviaLoop
    split
    · simp
    · split
      · simp
      · split
        · simp
        · split
          · simp
          · omega

/-- The quiz loop only reads the option queries and the completion query of
each observation: two observation streams agreeing on those fields drive it
to the same outcome. -/
theorem quizLoop_congr (s t : Nat → QuizObs)
    (hA : ∀ i, (s i).optsA = (t i).optsA) (hB : ∀ i, (s i).optsB = (t i).optsB)
    (hC : ∀ i, (s i).complete = (t i).complete) :
    ∀ (r q c : Nat), quizLoop s q r c = quizLoop t q r c := by
  intro r
  induction r with
  | zero => intro q c; rfl
  | succ n ih =>
    intro q c
    unfold quizLoop
    rw [hA q, hB q, hC q]
    cases (t q).optsA with
    | error e => rfl
    | ok optsA =>
      simp only
      cases (if optsA.isEmpty then (t q).optsB else Except.ok optsA) with
      | error e => rfl
      | ok opts =>
        simp only
        cases hE : opts.isEmpty with
        | true => simp
        | false =>
          simp only [if_neg (by simp : ¬(false = true))]
          cases (t q).complete with
          | error e => rfl
          | ok comp =>
            simp only
            cases comp with
            | true => simp
            | false =>
              simp only [if_neg (by simp : ¬(false = true))]
              exact ih (q + 1) (c + 1)

/-- The trivia loop only reads the option query and the completion query of
each observation. -/
theorem triviaLoop_congr (s t : Nat → TriviaObs)
    (hA : ∀ i, (s i).opts = (t i).opts) (hC : ∀ i, (s i).complete = (t i).complete) :
    ∀ (r q c : Nat), triviaLoop s q r c = triviaLoop t q r c := by
  intro r
  induction r with
  | zero => intro q c; rfl
  | succ n ih =>
    intro q c
    unfold triviaLoop
    rw [hA q, hC q]
    cases (t q).opts with
    | error e => rfl
    | ok opts =>
      simp only
      cases hE : opts.isEmpty with
      | true => simp
      | false =>
        simp only [if_neg (by simp : ¬(false = true))]
        cases (t q).complete with
        | error e => rfl
        | ok comp =>
          simp only
          cases comp with
          | true => simp
          | false =>
            simp only [if_neg (by simp : ¬(false = true))]
            exact ih (q + 1) (c + 1)

/-- The activity loop splits over list concatenation. -/
theorem activitiesLoop_append (l1 l2 : List ActivityPage) :
    activitiesLoop (l1 ++ l2) = activitiesLoop l1 + activitiesLoop l2 := by
  induction l1 with
  | nil => simp [activitiesLoop]
  | cons p rest ih =>
    simp only [List.cons_append, activitiesLoop, List.append_eq, ih]
    omega

/-- Whatever `parseCard` accepts passed its guards: not completed, non-empty
URL, title of length at least 3. -/
theorem parseCard_inv (c : Card) (a : Activity) (h : parseCard c = some a) :
    a.completed = false ∧ a.url ≠ "" ∧ 3 ≤ a.title.length := by
  unfold parseCard at h
  split at h
  · cases h
  · split at h
    · cases h
    · split at h
      · cases h
      · split at h
        · cases h
        · split at h
          · cases h
          · split at h
            · injection h with h2
              subst h2
              refine ⟨?_, ?_, ?_⟩ <;> ( rename_i hT _ _ _ hU; simp_all ) 
            · cases h

/-- Whatever `parseLink` accepts passed its guards: not completed, non-empty
URL, title of length at least 3. -/
theorem parseLink_inv (l : Link) (a : Activity) (h : parseLink l = some a) :
    a.completed = false ∧ a.url ≠ "" ∧ 3 ≤ a.title.length := by
  unfold parseLink at h
  split at h
  · cases h
  · split at h
    · cases h
    · split at h
      · cases h
      · dsimp only at h
        split at h
        · rename_i x1 hrefOpt heq1 x2 text heq2 hT hR
          injection h with h2
          subst h2
          refine ⟨rfl, ?_, ?_⟩
          · simp_all
          · have hT5 : 5 ≤ text.length := by simp_all
            have hlen : (pyTruncate text 80).length = min 80 text.data.length := by
              show (text.data.take 80).length = min 80 text.data.length
              exact List.length_take 80 text.data
            have htl : text.length = text.data.length := rfl
            simp only [hlen]
            omega
        · cases h

/-- C1, counterexample: the claim says every option-clicking handler (quiz,
poll, trivia) exits its loop early and returns success when an iteration
finds zero option elements, but `handle_poll` with both option queries
succeeding and returning zero elements returns `false`. -/
theorem C1_counterexample :
    handle_poll (PollEnv.mk (Except.ok []) (Except.ok []) (Except.ok ())) = false := by
  decide

/-- C1, amended: in the quiz and trivia handlers, an iteration that finds
zero option elements (primary query and, for quiz, the fallback query too)
exits the loop early and returns success (`Except.ok true`, no further
clicks); the poll handler instead returns `false` when zero option elements
are found. -/
theorem C1_zero_options (steps : Nat → QuizObs) (tsteps : Nat → TriviaObs)
    (env : PollEnv) (q r clicks : Nat)
    (hqa : (steps q).optsA = Except.ok []) (hqb : (steps q).optsB = Except.ok [])
    (hta : (tsteps q).opts = Except.ok [])
    (hpa : env.opts = Except.ok []) (hpb : env.optsB = Except.ok []) :
    quizLoop steps q (r + 1) clicks = (Except.ok true, clicks) ∧
    triviaLoop tsteps q (r + 1) clicks = (Except.ok true, clicks) ∧
    handle_poll env = false := by
  refine ⟨?_, ?_, ?_⟩
  · unfold quizLoop
    rw [hqa]
    simp [hqb]
  · unfold triviaLoop
    rw [hta]
    simp
  · unfold handle_poll handle_poll_run
    rw [hpa]
    simp [hpb, boundary]

/-- C1, witness: the amended statement at concrete inputs. -/
theorem C1_zero_options_witness :
    quizLoop (fun _ => QuizObs.mk (Except.ok []) (Except.ok []) false (Except.ok false))
        0 20 0 = (Except.ok true, 0) ∧
    triviaLoop (fun _ => TriviaObs.mk (Except.ok []) false (Except.ok false))
        0 15 0 = (Except.ok true, 0) ∧
    handle_poll (PollEnv.mk (Except.ok []) (Except.ok []) (Except.error ())) = false :=
  C1_zero_options (fun _ => QuizObs.mk (Except.ok []) (Except.ok []) false (Except.ok false))
    (fun _ => TriviaObs.mk (Except.ok []) false (Except.ok false))
    (PollEnv.mk (Except.ok []) (Except.ok []) (Except.error ()))
    0 19 0 rfl rfl rfl rfl rfl

/-- C2: every `Activity` returned by a detection pass — primary
`detect_activities` or the `_detect_alternative` fallback — has
`completed = false`, a non-empty `url`, and a `title` of length at
least 3. -/
theorem C2_detector_invariants :
    (∀ (d : DashboardDom), ∀ a ∈ detect_activities d,
        a.completed = false ∧ a.url ≠ "" ∧ 3 ≤ a.title.length) ∧
    (∀ (links : List Link), ∀ a ∈ detect_alternative links,
        a.completed = false ∧ a.url ≠ "" ∧ 3 ≤ a.title.length) := by
  constructor
  · intro d a ha
    unfold detect_activities at ha
    simp only [List.mem_filterMap] at ha
    obtain ⟨c, _, hc⟩ := ha
    exact parseCard_inv c a hc
  · intro links a ha
    unfold detect_alternative at ha
    simp only [List.mem_filterMap] at ha
    obtain ⟨l, _, hl⟩ := ha
    exact parseLink_inv l a hl

/-- C2, witness: the invariant at a concrete dashboard card and a concrete
fallback hyperlink. -/
theorem C2_detector_invariants_witness :
    ((Activity.mk "Daily Quiz" "" "/x" false).completed = false ∧
      (Activity.mk "Daily Quiz" "" "/x" false).url ≠ "" ∧
      3 ≤ (Activity.mk "Daily Quiz" "" "/x" false).title.length) ∧
    ((Activity.mk "Daily quiz +10" "+10" "/quiz1" false).completed = false ∧
      (Activity.mk "Daily quiz +10" "+10" "/quiz1" false).url ≠ "" ∧
      3 ≤ (Activity.mk "Daily quiz +10" "+10" "/quiz1" false).title.length) :=
  ⟨C2_detector_invariants.1
      (DashboardDom.mk
        [Card.mk (Except.ok (some "Daily Quiz")) (Except.ok "") (Except.ok none)
          (Except.ok true) (Except.ok (some "/x")) (Except.ok none) (Except.ok false)]
        [] [])
      (Activity.mk "Daily Quiz" "" "/x" false) (by decide),
   C2_detector_invariants.2
      [Link.mk (Except.ok (some "/quiz1")) (Except.ok "Daily quiz +10")]
      (Activity.mk "Daily quiz +10" "+10" "/quiz1" false) (by decide)⟩

/-- C3: the classifier is a total function — for every DOM state it returns
one of the four types, and returns `click_only` when no selector group
matches. -/
theorem C3_classifier_total (q : DomState) :
    (detect_activity_type q = "quiz" ∨ detect_activity_type q = "poll" ∨
      detect_activity_type q = "trivia" ∨ detect_activity_type q = "click_only") ∧
    (quiz_selectors.any q = false → poll_selectors.any q = false →
      trivia_selectors.any q = false → lightspeed_selectors.any q = false →
      detect_activity_type q = "click_only") := by
  constructor
  · unfold detect_activity_type
    split_ifs <;> simp
  · intro h1 h2 h3 h4
    unfold detect_activity_type
    simp [h1, h2, h3, h4]

/-- C3, witness: on a DOM state matching no selector at all the classifier
returns `click_only`. -/
theorem C3_classifier_total_witness :
    detect_activity_type (fun _ => false) = "click_only" :=
  (C3_classifier_total (fun _ => false)).2 rfl rfl rfl rfl

/-- C4, counterexample: the claim says an exception raised while clicking a
single option is swallowed in every option-clicking handler, but in
`handle_poll` the click raising flips the result from `true` to `false` —
the exception escapes to the handler boundary instead of being
swallowed. -/
theorem C4_counterexample :
    handle_poll (PollEnv.mk (Except.ok [0]) (Except.ok []) (Except.error ())) = false ∧
    handle_poll (PollEnv.mk (Except.ok [0]) (Except.ok []) (Except.ok ())) = true := by
  decide

/-- C4, amended: in the quiz and trivia handlers a per-option click
exception is swallowed — the loop outcome is independent of the click
outcomes; in the poll handler a click exception escapes to the handler
boundary and yields `false`; and in all three handlers an exception
escaping the handler body is caught at the boundary and the handler
returns `false` for that activity only. -/
theorem C4_click_exceptions :
    (∀ (steps : Nat → QuizObs) (f : Nat → Bool) (r q c : Nat),
        quizLoop (fun i => QuizObs.mk (steps i).optsA (steps i).optsB (f i)
          (steps i).complete) q r c = quizLoop steps q r c) ∧
    (∀ (steps : Nat → TriviaObs) (f : Nat → Bool) (r q c : Nat),
        triviaLoop (fun i => TriviaObs.mk (steps i).opts (f i) (steps i).complete)
          q r c = triviaLoop steps q r c) ∧
    (∀ (o : List Nat) (oB : Except Unit (List Nat)), o ≠ [] →
        handle_poll (PollEnv.mk (Except.ok o) oB (Except.error ())) = false) ∧
    (∀ env : QuizEnv, (handle_quiz_run env).1 = Except.error () →
        handle_quiz env = false) ∧
    (∀ steps : Nat → TriviaObs, (handle_trivia_run steps).1 = Except.error () →
        handle_trivia steps = false) ∧
    (∀ env : PollEnv, (handle_poll_run env).1 = Except.error () →
        handle_poll env = false) := by
  refine ⟨?_, ?_, ?_, ?_, ?_, ?_⟩
  · intro steps f r q c
    exact quizLoop_congr
      (fun i => QuizObs.mk (steps i).optsA (steps i).optsB (f i) (steps i).complete)
      steps (fun i => rfl) (fun i => rfl) (fun i => rfl) r q c
  · intro steps f r q c
    exact triviaLoop_congr
      (fun i => TriviaObs.mk (steps i).opts (f i) (steps i).complete)
      steps (fun i => rfl) (fun i => rfl) r q c
  · intro o oB ho
    unfold handle_poll handle_poll_run
    have hoe : o.isEmpty = false := by
      cases o with
      | nil => exact absurd rfl ho
      | cons x xs => rfl
    simp [hoe, boundary]
  · intro env h
    unfold handle_quiz
    rw [h]
    rfl
  · intro steps h
    unfold handle_trivia
    rw [h]
    rfl
  · intro env h
    unfold handle_poll
    rw [h]
    rfl

/-- C4, witness: the amended statement's conditional parts at concrete
inputs. -/
theorem C4_click_exceptions_witness :
    handle_poll (PollEnv.mk (Except.ok [1]) (Except.ok [1]) (Except.error ())) = false ∧
    handle_quiz (QuizEnv.mk (Except.error ()) (Except.ok ())
      (fun _ => QuizObs.mk (Except.ok []) (Except.ok []) false (Except.ok false))) = false ∧
    handle_trivia (fun _ => TriviaObs.mk (Except.error ()) false (Except.ok false)) = false ∧
    handle_poll (PollEnv.mk (Except.error ()) (Except.ok []) (Except.ok ())) = false :=
  ⟨C4_click_exceptions.2.2.1 [1] (Except.ok [1]) (by decide),
   C4_click_exceptions.2.2.2.1 _ rfl,
   C4_click_exceptions.2.2.2.2.1 _ rfl,
   C4_click_exceptions.2.2.2.2.2 _ rfl⟩

/-- C5: iteration bounds — for every execution the quiz handler performs at
most 20 click iterations, the trivia handler at most 15, and the poll
handler at most 1. -/
theorem C5_iteration_bounds :
    (∀ env : QuizEnv, (handle_quiz_run env).2 ≤ 20) ∧
    (∀ steps : Nat → TriviaObs, (handle_trivia_run steps).2 ≤ 15) ∧
    (∀ env : PollEnv, (handle_poll_run env).2 ≤ 1) := by
  refine ⟨?_, ?_, ?_⟩
  · intro env
    unfold handle_quiz_run
    split
    · simp
    · split
      · split
        · simp
        · simpa using quizLoop_clicks_le env.steps 20 0 0
      · simpa using quizLoop_clicks_le env.steps 20 0 0
  · intro steps
    unfold handle_trivia_run
    simpa using triviaLoop_clicks_le steps 15 0 0
  · intro env
    unfold handle_poll_run
    split
    · simp
    · split
      · simp
      · split
        · simp
        · split <;> simp

/-- C6: on every page state where at least one quiz-marker selector and at
least one trivia-marker selector match, the classifier returns `quiz`
(quiz markers are checked before trivia markers and win the tie). -/
theorem C6_quiz_wins_tie (q : DomState) (hq : quiz_selectors.any q = true)
    (ht : trivia_selectors.any q = true) : detect_activity_type q = "quiz" := by
  unfold detect_activity_type
  simp [hq]

/-- C6, witness: a DOM state matching both a quiz marker and a trivia
marker is classified `quiz`. -/
theorem C6_quiz_wins_tie_witness :
    detect_activity_type
      (fun s => s == "#rqQuestionState" || s == ".wk_Circle") = "quiz" :=
  C6_quiz_wins_tie (fun s => s == "#rqQuestionState" || s == ".wk_Circle")
    (by decide) (by decide)

/-- C7: a failed activity — its navigation raising (timeout included), or
the dispatched handler's body raising — is counted as not completed, and
the orchestrator loop still processes every other activity: the tally over
the whole list is the tally of the activities before plus the tally of the
activities after the failed one, so the failed activity is excluded and the
run is not aborted. -/
theorem C7_per_activity_isolation (pre post : List ActivityPage) (p : ActivityPage)
    (h : p.nav = Except.error () ∨
      dispatchRun (detect_activity_type p.classifyDom) p = Except.error ()) :
    complete_activity p = false ∧
    activitiesLoop (pre ++ p :: post) = activitiesLoop pre + activitiesLoop post := by
  have hp : complete_activity p = false := by
    unfold complete_activity
    cases hnav : p.nav with
    | error e => rfl
    | ok u =>
      simp only
      cases h with
      | inl hl => rw [hnav] at hl; cases hl
      | inr hr => rw [hr]; rfl
  refine ⟨hp, ?_⟩
  rw [activitiesLoop_append]
  simp [activitiesLoop, hp]

/-- C7, witness: an activity whose navigation times out contributes nothing
to the tally and does not stop the loop. -/
theorem C7_per_activity_isolation_witness :
    complete_activity
      (ActivityPage.mk (Except.error ()) (fun _ => false)
        (QuizEnv.mk (Except.ok false) (Except.ok ())
          (fun _ => QuizObs.mk (Except.ok []) (Except.ok []) false (Except.ok false)))
        (PollEnv.mk (Except.ok []) (Except.ok []) (Except.ok ()))
        (fun _ => TriviaObs.mk (Except.ok []) false (Except.ok false))
        (ClickOnlyEnv.mk (Except.ok ()))) = false ∧
    activitiesLoop ([] ++
      (ActivityPage.mk (Except.error ()) (fun _ => false)
        (QuizEnv.mk (Except.ok false) (Except.ok ())
          (fun _ => QuizObs.mk (Except.ok []) (Except.ok []) false (Except.ok false)))
        (PollEnv.mk (Except.ok []) (Except.ok []) (Except.ok ()))
        (fun _ => TriviaObs.mk (Except.ok []) false (Except.ok false))
        (ClickOnlyEnv.mk (Except.ok ()))) :: []) =
      activitiesLoop [] + activitiesLoop [] :=
  C7_per_activity_isolation [] []
    (ActivityPage.mk (Except.error ()) (fun _ => false)
      (QuizEnv.mk (Except.ok false) (Except.ok ())
        (fun _ => QuizObs.mk (Except.ok []) (Except.ok []) false (Except.ok false)))
      (PollEnv.mk (Except.ok []) (Except.ok []) (Except.ok ()))
      (fun _ => TriviaObs.mk (Except.ok []) false (Except.ok false))
      (ClickOnlyEnv.mk (Except.ok ())))
    (Or.inl rfl)

/-- C8: when the DOM access inside the login gate raises, `_check_login`
returns `true` — the gate fails open. -/
theorem C8_login_fails_open (env : LoginEnv)
    (h : check_login_run env = Except.error ()) : check_login env = true := by
  unfold check_login
  rw [h]

/-- C8, witness: a login environment whose first DOM query raises makes the
gate return `true`. -/
theorem C8_login_fails_open_witness :
    check_login (LoginEnv.mk (Except.error ()) (Except.ok "") (Except.ok false)) = true :=
  C8_login_fails_open
    (LoginEnv.mk (Except.error ()) (Except.ok "") (Except.ok false)) rfl

/-- The detection-and-loop phase produces one of exactly two traces, both
closing the context. -/
theorem runDetectPhase_trace (env : RunEnv) (dryrun : Bool) :
    (runDetectPhase env dryrun).2 = [Event.created, Event.closedTeardown] ∨
    (runDetectPhase env dryrun).2 = [Event.created, Event.closedExplicit] := by
  unfold runDetectPhase
  cases env.dashScan with
  | error e => left; rfl
  | ok u =>
    cases detectBoth env with
    | error e => left; rfl
    | ok acts =>
      cases hF : env.finalCloseRaises with
      | true => left; rfl
      | false => right; rfl

/-- The login phase produces one of exactly two traces, both closing the
context. -/
theorem runLoginPhase_trace (env : RunEnv) (dryrun : Bool) :
    (runLoginPhase env dryrun).2 = [Event.created, Event.closedTeardown] ∨
    (runLoginPhase env dryrun).2 = [Event.created, Event.closedExplicit] := by
  unfold runLoginPhase
  split
  · exact runDetectPhase_trace env dryrun
  · split
    · left; rfl
    · split
      · left; rfl
      · split
        · exact runDetectPhase_trace env dryrun
        · split
          · left; rfl
          · right; rfl

/-- Every run trace is empty (no context was ever created) or ends in a
close event. -/
theorem run_trace (env : RunEnv) (browser_path profile : String)
    (headless dryrun : Bool) :
    (run_daily_activities env browser_path profile headless dryrun).2 = [] ∨
    (run_daily_activities env browser_path profile headless dryrun).2 =
      [Event.created, Event.closedTeardown] ∨
    (run_daily_activities env browser_path profile headless dryrun).2 =
      [Event.created, Event.closedExplicit] := by
  unfold run_daily_activities
  split
  · left; rfl
  · split
    · left; rfl
    · split
      · right; left; rfl
      · split
        · right; left; rfl
        · exact Or.inr (runLoginPhase_trace env dryrun)

/-- C9: on every exit path of `run_daily_activities`, if the Automation
Context was created then it is closed before the run returns — by the
source's own `context.close()` or by the `async with async_playwright()`
teardown on the fatal-error paths. -/
theorem C9_context_closed (env : RunEnv) (browser_path profile : String)
    (headless dryrun : Bool)
    (h : Event.created ∈ (run_daily_activities env browser_path profile headless dryrun).2) :
    Event.closedExplicit ∈
        (run_daily_activities env browser_path profile headless dryrun).2 ∨
    Event.closedTeardown ∈
        (run_daily_activities env browser_path profile headless dryrun).2 := by
  rcases run_trace env browser_path profile headless dryrun with ht | ht | ht
  · rw [ht] at h; cases h
  · right; rw [ht]; simp
  · left; rw [ht]; simp

/-- C9, witness: a fully successful concrete run creates the context and
closes it explicitly. -/
theorem C9_context_closed_witness :
    Event.closedExplicit ∈
        (run_daily_activities
          (RunEnv.mk (some "msedge") (Except.ok ()) (Except.ok ()) (Except.ok ())
            (LoginEnv.mk (Except.ok true) (Except.ok "") (Except.ok false))
            (Except.ok ()) (Except.ok ())
            (LoginEnv.mk (Except.ok true) (Except.ok "") (Except.ok false))
            (Except.ok ()) (DashboardDom.mk [] [] []) (Except.ok ()) []
            (fun _ => ActivityPage.mk (Except.ok ()) (fun _ => false)
              (QuizEnv.mk (Except.ok false) (Except.ok ())
                (fun _ => QuizObs.mk (Except.ok []) (Except.ok []) false (Except.ok false)))
              (PollEnv.mk (Except.ok []) (Except.ok []) (Except.ok ()))
              (fun _ => TriviaObs.mk (Except.ok []) false (Except.ok false))
              (ClickOnlyEnv.mk (Except.ok ())))
            false false)
          "" "Default" false false).2 ∨
    Event.closedTeardown ∈
        (run_daily_activities
          (RunEnv.mk (some "msedge") (Except.ok ()) (Except.ok ()) (Except.ok ())
            (LoginEnv.mk (Except.ok true) (Except.ok "") (Except.ok false))
            (Except.ok ()) (Except.ok ())
            (LoginEnv.mk (Except.ok true) (Except.ok "") (Except.ok false))
            (Except.ok ()) (DashboardDom.mk [] [] []) (Except.ok ()) []
            (fun _ => ActivityPage.mk (Except.ok ()) (fun _ => false)
              (QuizEnv.mk (Except.ok false) (Except.ok ())
                (fun _ => QuizObs.mk (Except.ok []) (Except.ok []) false (Except.ok false)))
              (PollEnv.mk (Except.ok []) (Except.ok []) (Except.ok ()))
              (fun _ => TriviaObs.mk (Except.ok []) false (Except.ok false))
              (ClickOnlyEnv.mk (Except.ok ())))
            false false)
          "" "Default" false false).2 :=
  C9_context_closed _ "" "Default" false false (by decide)

/-- C10: the `profile` argument of the entry point has no effect — two runs
differing only in it return the same completed count and produce the same
trace of actions. -/
theorem C10_profile_no_effect (env : RunEnv) (browser_path p1 p2 : String)
    (headless dryrun : Bool) :
    run_daily_activities env browser_path p1 headless dryrun =
      run_daily_activities env browser_path p2 headless dryrun := rfl

end DailyActivities
